import Mathlib

/-!
# Smirkle: verification of the consecutive-frame smirk-confirmation core

A shallow embedding of the session-scoped smirk-detection logic of the
Smirkle repository, together with theorems checking the natural-language
specification against it.

Embedded source files:
* `backend/app/config.py` — settings with the detection defaults.
* `backend/app/services/deepface_service.py` — `DeepFaceService.__init__`
  and the per-frame analysis `analyze_frame` (the DeepFace library call
  itself is an external collaborator, modelled as an observation of the
  frame: happy-percentage, no-face, or failure).
* `backend/app/api/routes.py` — the session store helpers
  (`get_session_state`, `reset_session_state`) and the endpoint handlers
  `analyze_emotion`, `get_session_status`, `reset_session`, and the state
  update of `websocket_endpoint`.
* `api/session.py` and `api/analyze-emotion.py` — the serverless variants.
* `src/services/emotion_detection.py` — `process_frame` of the Flask demo.

Modelling conventions: Python floats (scores, timestamps) are modelled as
exact rationals `ℚ`; the 4-decimal float rounding in `_normalize_emotions`
is abstracted to exact division by 100 (no claim depends on the rounding).
Python dicts keyed by session id are modelled as insertion-ordered
association lists.
-/

namespace Smirkle

/-! ## Settings (`backend/app/config.py`)

Only the fields the detection core reads are carried. -/

structure Settings where
  smirk_threshold : ℚ
  consecutive_frames_required : ℕ
  deriving DecidableEq

/-- The environment-default settings: `smirk_threshold: float = 0.3`,
`consecutive_frames_required: int = 3`.  The rational `0.3` is written
`mkRat 3 10` so that concrete runs evaluate definitionally;
`settings_smirk_threshold_eq` states it equals `3 / 10`. -/
def settings : Settings :=
  { smirk_threshold := mkRat 3 10, consecutive_frames_required := 3 }

/-! ## Session-id validation (`uuid.UUID(session_id)`)

Model of the acceptance condition of Python's `uuid.UUID` constructor on a
string: it replaces `urn:` and `uuid:`, strips surrounding braces, removes
hyphens, and then requires exactly 32 hexadecimal digits.  (The digit-group
separator tolerance of Python's `int(hex, 16)` is abstracted away; no claim
depends on it.)  The endpoints reject a session id exactly when this
constructor raises `ValueError`. -/

/-- Left-to-right, non-overlapping removal of every occurrence of the
pattern `pat`, with explicit fuel so that the recursion is structural
(the fuel `l.length` always suffices: each step consumes at least one
character when `pat` is non-empty). -/
def removeAllFuel (pat : List Char) : ℕ → List Char → List Char
  | 0, l => l
  | _ + 1, [] => []
  | fuel + 1, c :: rest =>
      if pat.isPrefixOf (c :: rest) then
        removeAllFuel pat fuel (List.drop (pat.length - 1) rest)
      else
        c :: removeAllFuel pat fuel rest

/-- Python `s.replace(pat, "")` for a non-empty pattern. -/
def removeAll (pat : List Char) (l : List Char) : List Char :=
  if pat.isEmpty then l else removeAllFuel pat l.length l

/-- Membership in the strip set of Python `s.strip("\x7b\x7d")`. -/
def isBraceChar (c : Char) : Bool :=
  c == '\x7b' || c == '\x7d'

/-- Python `s.strip("\x7b\x7d")`: drop brace characters from both ends. -/
def stripBraces (l : List Char) : List Char :=
  ((l.dropWhile isBraceChar).reverse.dropWhile isBraceChar).reverse

/-- A hexadecimal digit, as accepted by Python `int(_, 16)`. -/
def isHexChar (c : Char) : Bool :=
  c.isDigit || ('a' ≤ c && c ≤ 'f') || ('A' ≤ c && c ≤ 'F')

/-- Model of `uuid.UUID(s)` succeeding: the acceptance predicate the
endpoints use to validate session ids. -/
def uuidShaped (s : String) : Bool :=
  let l0 := removeAll ("urn:".toList) s.toList
  let l1 := removeAll ("uuid:".toList) l0
  let l2 := (stripBraces l1).filter (fun c => c ≠ '-')
  l2.length == 32 && l2.all isHexChar

/-! ## `DeepFaceService.__init__` (`deepface_service.py`)

Python evaluates `smirk_threshold or settings.smirk_threshold`: `None`
and `0`/`0.0` are falsy, so a zero-valued injected configuration silently
falls back to the settings default. -/

/-- Python `x or default` for an optional float argument. -/
def pyOrQ (x : Option ℚ) (default : ℚ) : ℚ :=
  match x with
  | none => default
  | some v => if v = 0 then default else v

/-- Python `x or default` for an optional int argument. -/
def pyOrNat (x : Option ℕ) (default : ℕ) : ℕ :=
  match x with
  | none => default
  | some v => if v = 0 then default else v

/-- The detection-relevant configuration of a `DeepFaceService` instance. -/
structure DeepFaceService where
  smirk_threshold : ℚ
  consecutive_frames_required : ℕ
  deriving DecidableEq

/-- `DeepFaceService.__init__`:
`self.smirk_threshold = smirk_threshold or settings.smirk_threshold` and
`self.consecutive_frames_required = consecutive_frames_required or
settings.consecutive_frames_required`. -/
def DeepFaceService.init (smirk_threshold : Option ℚ)
    (consecutive_frames_required : Option ℕ) : DeepFaceService :=
  { smirk_threshold := pyOrQ smirk_threshold settings.smirk_threshold,
    consecutive_frames_required :=
      pyOrNat consecutive_frames_required settings.consecutive_frames_required }

/-- `get_deepface_service()`: the singleton is constructed with all
arguments `None`, so it carries the settings defaults. -/
def defaultService : DeepFaceService :=
  DeepFaceService.init none none

/-! ## Frame analysis (`DeepFaceService.analyze_frame`)

The call into the DeepFace library is the external Frame Scorer; its
outcome for one frame is modelled as an observation: the raw `happy`
percentage it reported, a no-face `ValueError`, or any other failure. -/

/-- Outcome of the external `DeepFace.analyze` call on one frame. -/
inductive ScoreObs where
  /-- Analysis succeeded; `happyPercent` is the raw `happy` percentage. -/
  | success (happyPercent : ℚ)
  /-- `ValueError` whose message reports that no face was detected. -/
  | noFace
  /-- Any other exception during analysis. -/
  | failure
  deriving DecidableEq

/-- The `status` value of an analysis result dict. -/
inductive DetStatus where
  | success
  | no_face_detected
  | error
  deriving DecidableEq

/-- `_normalize_emotions`: DeepFace returns percentages; the service
converts them to probabilities by dividing by 100 (`round(value / 100.0,
4)`; the 4-decimal float rounding is abstracted to exact division).  The
division is written via `mkRat` so that concrete runs evaluate
definitionally; `normalizeEmotion_eq_div` states it equals `v / 100`. -/
def normalizeEmotion (v : ℚ) : ℚ :=
  mkRat v.num (v.den * 100)

/-- The detection-relevant fields of the result dict built by
`analyze_frame` and enriched by the route handlers. -/
structure AnalysisResult where
  status : DetStatus
  session_id : String
  timestamp : ℚ
  face_detected : Bool
  happiness : Option ℚ
  is_smirk : Bool
  smirk_reason : Option String
  consecutive_smirk_count : ℕ
  game_over : Bool
  game_over_reason : Option String
  deriving DecidableEq

/-- `DeepFaceService.analyze_frame`: success path normalizes the `happy`
percentage and classifies `is_smirk = happiness >= self.smirk_threshold`;
the no-face `ValueError` and generic exception paths return the
corresponding status dicts with `is_smirk = False`. -/
def DeepFaceService.analyzeFrame (svc : DeepFaceService) (obs : ScoreObs)
    (session_id : String) (client_timestamp : ℚ) : AnalysisResult :=
  match obs with
  | .success happyPercent =>
      let happiness := normalizeEmotion happyPercent
      let is_smirk := decide (happiness ≥ svc.smirk_threshold)
      { status := .success
        session_id := session_id
        timestamp := client_timestamp
        face_detected := true
        happiness := some happiness
        is_smirk := is_smirk
        smirk_reason := if is_smirk then some "threshold_exceeded" else none
        consecutive_smirk_count := 0
        game_over := false
        game_over_reason := none }
  | .noFace =>
      { status := .no_face_detected
        session_id := session_id
        timestamp := client_timestamp
        face_detected := false
        happiness := none
        is_smirk := false
        smirk_reason := none
        consecutive_smirk_count := 0
        game_over := false
        game_over_reason := none }
  | .failure =>
      { status := .error
        session_id := session_id
        timestamp := client_timestamp
        face_detected := false
        happiness := none
        is_smirk := false
        smirk_reason := none
        consecutive_smirk_count := 0
        game_over := false
        game_over_reason := none }

/-! ## Session store (`routes.py` module-level `_session_state` dict)

The per-session record and the dict operations, modelled as an
insertion-ordered association list (new keys are appended, matching
Python dict insertion order). -/

/-- The per-session record created by `get_session_state`. -/
structure SessionState where
  consecutive_smirk_count : ℕ
  last_detection_time : Option ℚ
  smirk_detected_at : Option ℚ
  deriving DecidableEq

/-- The zero-initialized record installed on first reference. -/
def initialSessionState : SessionState :=
  { consecutive_smirk_count := 0
    last_detection_time := none
    smirk_detected_at := none }

/-- The module-level `_session_state` dict. -/
abbrev SessionStore := List (String × SessionState)

/-- `session_id in _session_state` / `_session_state[session_id]`. -/
def lookupState (store : SessionStore) (sid : String) : Option SessionState :=
  match store with
  | [] => none
  | (k, v) :: rest => if k = sid then some v else lookupState rest sid

/-- In-place dict assignment `_session_state[session_id] = st`: overwrite
the existing entry, or append a new one. -/
def storeSet (store : SessionStore) (sid : String) (st : SessionState) :
    SessionStore :=
  match store with
  | [] => [(sid, st)]
  | (k, v) :: rest =>
      if k = sid then (k, st) :: rest else (k, v) :: storeSet rest sid st

/-- `get_session_state` (routes.py): get or create session state; returns
the record together with the possibly-extended store. -/
def get_session_state (store : SessionStore) (sid : String) :
    SessionState × SessionStore :=
  match lookupState store sid with
  | some st => (st, store)
  | none => (initialSessionState, storeSet store sid initialSessionState)

/-- `reset_session_state` (routes.py): zero the consecutive count if the
session exists; otherwise do nothing. -/
def reset_session_state (store : SessionStore) (sid : String) : SessionStore :=
  match lookupState store sid with
  | some st => storeSet store sid { st with consecutive_smirk_count := 0 }
  | none => store

/-! ## FastAPI endpoint handlers (`routes.py`) -/

/-- The error responses the handlers raise via `HTTPException`. -/
inductive ApiError where
  /-- 400 `INVALID_SESSION_ID`. -/
  | invalidSessionId
  /-- 400 `MISSING_SESSION_ID` (serverless variants). -/
  | missingSessionId
  /-- 400 `MISSING_FRAME` (serverless variants). -/
  | missingFrame
  /-- 500 `PROCESSING_ERROR` (any exception inside the handler body,
  including response-schema validation failure). -/
  | processingError
  deriving DecidableEq

instance {ε α : Type} [DecidableEq ε] [DecidableEq α] :
    DecidableEq (Except ε α) := fun a b =>
  match a, b with
  | .error e, .error f =>
      if h : e = f then .isTrue (by rw [h])
      else .isFalse (fun hc => h (by injection hc))
  | .error _, .ok _ => .isFalse (fun hc => Except.noConfusion hc)
  | .ok _, .error _ => .isFalse (fun hc => Except.noConfusion hc)
  | .ok x, .ok y =>
      if h : x = y then .isTrue (by rw [h])
      else .isFalse (fun hc => h (by injection hc))

/-- The bound checks of `DetectionResponse` (schemas.py) on the fields the
embedding carries: `happiness: Optional[float] = Field(None, ge=0, le=1)`.
Pydantic rejects an out-of-range value (raising inside the handler's `try`,
surfaced as a 500 `PROCESSING_ERROR`); it does not clamp. -/
def detectionResponseOk (r : AnalysisResult) : Bool :=
  match r.happiness with
  | none => true
  | some h => decide (0 ≤ h) && decide (h ≤ 1)

/-- `analyze_emotion` (routes.py): validate the session id, analyze the
frame, update the consecutive-smirk state, and build the response.  The
observation `obs` stands for the outcome of the `DeepFace.analyze` call on
the decoded frame.  Returns the response (or error) and the updated store. -/
def analyze_emotion (store : SessionStore) (sid : String) (ts : ℚ)
    (obs : ScoreObs) : Except ApiError AnalysisResult × SessionStore :=
  if uuidShaped sid = false then
    (.error .invalidSessionId, store)
  else
    let result := defaultService.analyzeFrame obs sid ts
    let stst := get_session_state store sid
    if result.status = DetStatus.success then
      let cnt :=
        if result.is_smirk then stst.1.consecutive_smirk_count + 1 else 0
      let st1 := { stst.1 with
                   consecutive_smirk_count := cnt
                   last_detection_time := some ts }
      if settings.consecutive_frames_required ≤ cnt then
        let st2 := { st1 with smirk_detected_at := some ts }
        let result1 := { result with
                         is_smirk := true
                         smirk_reason := some "consecutive_frames"
                         game_over := true
                         game_over_reason := some "smirk_detected"
                         consecutive_smirk_count := cnt }
        (if detectionResponseOk result1 then .ok result1
         else .error .processingError, storeSet stst.2 sid st2)
      else
        let result1 := { result with consecutive_smirk_count := cnt }
        (if detectionResponseOk result1 then .ok result1
         else .error .processingError, storeSet stst.2 sid st1)
    else
      let st1 := { stst.1 with consecutive_smirk_count := 0 }
      let result1 := { result with consecutive_smirk_count := 0 }
      (if detectionResponseOk result1 then .ok result1
       else .error .processingError, storeSet stst.2 sid st1)

/-- The body of the `/session/.../status` response. -/
structure SessionStatusResp where
  session_id : String
  consecutive_smirk_count : ℕ
  last_detection_time : Option ℚ
  smirk_detected_at : Option ℚ
  game_over : Bool
  deriving DecidableEq

/-- `get_session_status` (routes.py): validate the session id, then get or
create the session state and project it; `game_over` is recomputed as
`consecutive_smirk_count >= settings.consecutive_frames_required`. -/
def get_session_status (store : SessionStore) (sid : String) :
    Except ApiError SessionStatusResp × SessionStore :=
  if uuidShaped sid = false then
    (.error .invalidSessionId, store)
  else
    let stst := get_session_state store sid
    (.ok { session_id := sid
           consecutive_smirk_count := stst.1.consecutive_smirk_count
           last_detection_time := stst.1.last_detection_time
           smirk_detected_at := stst.1.smirk_detected_at
           game_over :=
             decide (settings.consecutive_frames_required ≤
               stst.1.consecutive_smirk_count) },
     stst.2)

/-- `reset_session` (routes.py): validate the session id, then call
`reset_session_state`, replying with a confirmation. -/
def reset_session (store : SessionStore) (sid : String) :
    Except ApiError Unit × SessionStore :=
  if uuidShaped sid = false then
    (.error .invalidSessionId, store)
  else
    (.ok (), reset_session_state store sid)

/-- The state update performed per frame by `websocket_endpoint`
(routes.py): analyze the frame, then — only when the status is success —
increment the count on a smirk or reset it on a non-smirk.  There is no
branch for a non-success status, no threshold check and no game-over
logic on this path; the raw result dict (with the current count patched
in) is sent back without `DetectionResponse` validation. -/
def websocket_frame (store : SessionStore) (sid : String) (ts : ℚ)
    (obs : ScoreObs) : AnalysisResult × SessionStore :=
  let result := defaultService.analyzeFrame obs sid ts
  let stst := get_session_state store sid
  let st1 :=
    if result.status = DetStatus.success then
      if result.is_smirk then
        { stst.1 with
          consecutive_smirk_count := stst.1.consecutive_smirk_count + 1 }
      else
        { stst.1 with consecutive_smirk_count := 0 }
    else
      stst.1
  ({ result with consecutive_smirk_count := st1.consecutive_smirk_count },
   storeSet stst.2 sid st1)

/-- Fold a list of (timestamp, observation) frames through
`analyze_emotion` on one session, keeping only the final store. -/
def analyzeSeq (store : SessionStore) (sid : String)
    (frames : List (ℚ × ScoreObs)) : SessionStore :=
  match frames with
  | [] => store
  | (ts, obs) :: rest => analyzeSeq (analyze_emotion store sid ts obs).2 sid rest

/-- Fold a list of (timestamp, observation) frames through
`websocket_frame` on one session, keeping only the final store. -/
def websocketSeq (store : SessionStore) (sid : String)
    (frames : List (ℚ × ScoreObs)) : SessionStore :=
  match frames with
  | [] => store
  | (ts, obs) :: rest => websocketSeq (websocket_frame store sid ts obs).2 sid rest

/-! ## Serverless session endpoint (`api/session.py`)

Same record shape; its `reset_session_state` clears all three fields, and
its `main` handler validates the session id, creates the session (the
`get_session_state` call precedes the action dispatch) and either resets
or reports status (`game_over` compares against the literal 3). -/

/-- `reset_session_state` (api/session.py): clear count, last detection
time, and detection timestamp — if the session exists. -/
def vercelResetSessionState (store : SessionStore) (sid : String) :
    SessionStore :=
  match lookupState store sid with
  | some _ => storeSet store sid initialSessionState
  | none => store

/-- The action dispatched by the serverless session endpoint. -/
inductive VercelAction where
  | statusAction
  | resetAction
  deriving DecidableEq

/-- Reply of the serverless session endpoint. -/
inductive VercelSessionOut where
  /-- Status projection of the session record. -/
  | statusOut (resp : SessionStatusResp)
  /-- Reset confirmation message. -/
  | resetOut (sid : String)
  deriving DecidableEq

/-- `main` (api/session.py): a `None` or empty session id gives 400
`MISSING_SESSION_ID`; a non-UUID one gives 400 `INVALID_SESSION_ID`; then
the session is fetched or created and the action performed. -/
def vercel_session_main (store : SessionStore) (session_id : Option String)
    (action : VercelAction) :
    Except ApiError VercelSessionOut × SessionStore :=
  match session_id with
  | none => (.error .missingSessionId, store)
  | some sid =>
      if sid = "" then
        (.error .missingSessionId, store)
      else if uuidShaped sid = false then
        (.error .invalidSessionId, store)
      else
        let stst := get_session_state store sid
        match action with
        | .resetAction =>
            (.ok (.resetOut sid), vercelResetSessionState stst.2 sid)
        | .statusAction =>
            (.ok (.statusOut
               { session_id := sid
                 consecutive_smirk_count := stst.1.consecutive_smirk_count
                 last_detection_time := stst.1.last_detection_time
                 smirk_detected_at := stst.1.smirk_detected_at
                 game_over := decide (3 ≤ stst.1.consecutive_smirk_count) }),
             stst.2)

/-! ## Serverless analyze endpoint (`api/analyze-emotion.py`)

`analyze_frame_simple` validates the session id, then the base64 frame
(the decode outcome of the external base64 library is an input), and
otherwise returns a fixed simulated success.  `main` rejects a missing
frame or session id with 400 before calling it.  This module keeps no
session store. -/

/-- Reply of the serverless analyze endpoint. -/
inductive VercelAnalyzeOut where
  | errorOut (code : String)
  | successOut
  deriving DecidableEq

/-- `analyze_frame_simple` (api/analyze-emotion.py); `frameDecodes` is the
outcome of the `base64.b64decode` call on the frame payload. -/
def analyze_frame_simple (frameDecodes : Bool) (session_id : String) :
    VercelAnalyzeOut :=
  if uuidShaped session_id = false then .errorOut "INVALID_SESSION_ID"
  else if frameDecodes = false then .errorOut "INVALID_FRAME"
  else .successOut

/-- `main` (api/analyze-emotion.py): empty frame and empty session id are
rejected with 400; an error result from `analyze_frame_simple` is returned
with HTTP status 400, a success with 200. -/
def vercel_analyze_main (frame : String) (session_id : String)
    (frameDecodes : Bool) : VercelAnalyzeOut × ℕ :=
  if frame = "" then (.errorOut "MISSING_FRAME", 400)
  else if session_id = "" then (.errorOut "MISSING_SESSION_ID", 400)
  else
    match analyze_frame_simple frameDecodes session_id with
    | .errorOut e => (.errorOut e, 400)
    | .successOut => (.successOut, 200)

/-! ## Flask demo scorer (`src/services/emotion_detection.py`)

`process_frame` decodes the frame (via OpenCV, an external collaborator
whose outcome is an input) and classifies with the hard-coded threshold
`happiness_score >= 0.3`. -/

/-- Outcome of `cv2.imdecode` + model prediction on the raw frame bytes. -/
inductive FrameDecode where
  /-- `cv2.imdecode` returned `None`. -/
  | invalidImage
  /-- Decode and prediction succeeded with this happiness score. -/
  | decoded (happiness_score : ℚ)
  /-- Any exception during processing. -/
  | exceptionRaised
  deriving DecidableEq

/-- Result dict of `process_frame`. -/
inductive ProcessFrameResult where
  | errorResult (message : String)
  | successResult (score : ℚ) (is_smirk : Bool)
  deriving DecidableEq

/-- `process_frame` (src/services/emotion_detection.py); the hard-coded
threshold `0.3` is written `mkRat 3 10` (equal to `3 / 10` by
`settings_smirk_threshold_eq`). -/
def process_frame (d : FrameDecode) : ProcessFrameResult :=
  match d with
  | .invalidImage => .errorResult "Invalid image data"
  | .decoded score => .successResult score (decide (score ≥ mkRat 3 10))
  | .exceptionRaised => .errorResult "exception"

/-! ## Concrete inputs for counterexamples and witnesses -/

/-- A canonical well-formed session id used in concrete runs (the example
id from the repository's own request schema). -/
def uuidA : String := "550e8400-e29b-41d4-a716-446655440000"

/-- The store after three hit frames (score 0.4, raw percentage 40) on
`uuidA` through the HTTP endpoint, with timestamps 1, 2, 3.  The third
call reaches `consecutive_frames_required = 3`. -/
def storeAfterThreeHits : SessionStore :=
  analyzeSeq [] uuidA [(1, .success 40), (2, .success 40), (3, .success 40)]

/-- The store after a fourth hit frame (timestamp 4) on top of
`storeAfterThreeHits`. -/
def storeAfterFourHits : SessionStore :=
  analyzeSeq storeAfterThreeHits uuidA [(4, .success 40)]

/-- A store holding one session with a streak of two hits and no
confirmation yet. -/
def storeWithStreakTwo : SessionStore :=
  [(uuidA, { consecutive_smirk_count := 2, last_detection_time := some 2,
             smirk_detected_at := none })]

/-! ## Bridging lemmas

The `mkRat` spellings used for definitional evaluation coincide with the
ordinary division they transcribe. -/

/-- `mkRat 3 10` is the rational number `0.3 = 3 / 10`. -/
theorem settings_smirk_threshold_eq : settings.smirk_threshold = 3 / 10 := by
  show mkRat 3 10 = 3 / 10
  rw [Rat.mkRat_eq_divInt, Rat.divInt_eq_div]
  norm_num

/-- `normalizeEmotion` is exact division by 100. -/
theorem normalizeEmotion_eq_div (v : ℚ) : normalizeEmotion v = v / 100 := by
  unfold normalizeEmotion
  rw [Rat.mkRat_eq_divInt, Rat.divInt_eq_div]
  push_cast
  rw [div_mul_eq_div_div, Rat.num_div_den]

/-! ## Store lemmas -/

/-- Looking a key up after a dict assignment: the assigned key maps to the
new value, any other key is untouched. -/
theorem lookupState_storeSet (store : SessionStore) (sid sid2 : String)
    (st : SessionState) :
    lookupState (storeSet store sid st) sid2
      = if sid2 = sid then some st else lookupState store sid2 := by
  induction store with
  | nil =>
      by_cases h : sid2 = sid
      · subst h; simp [storeSet, lookupState]
      · simp [storeSet, lookupState, h, Ne.symm h]
  | cons hd tl ih =>
      obtain ⟨k, v⟩ := hd
      by_cases hk : k = sid
      · subst hk
        by_cases h2 : sid2 = k
        · subst h2; simp [storeSet, lookupState]
        · simp [storeSet, lookupState, h2, Ne.symm h2]
      · by_cases h2 : sid2 = k
        · subst h2
          simp [storeSet, lookupState, hk]
        · simp [storeSet, lookupState, hk, h2, Ne.symm h2, ih]

/-- Re-assigning the value a key already holds leaves the dict unchanged. -/
theorem storeSet_self (store : SessionStore) (sid : String)
    (st : SessionState) (h : lookupState store sid = some st) :
    storeSet store sid st = store := by
  induction store with
  | nil => simp [lookupState] at h
  | cons hd tl ih =>
      obtain ⟨k, v⟩ := hd
      simp only [lookupState] at h
      simp only [storeSet]
      by_cases hk : k = sid
      · rw [if_pos hk] at h
        rw [if_pos hk, (Option.some_inj.mp h)]
      · rw [if_neg hk] at h
        rw [if_neg hk, ih h]

/-- `get_session_state` on a present key returns the stored record and the
unchanged store. -/
theorem get_session_state_of_present (store : SessionStore) (sid : String)
    (st : SessionState) (h : lookupState store sid = some st) :
    get_session_state store sid = (st, store) := by
  simp [get_session_state, h]

/-- `get_session_state` on an absent key creates the zero record. -/
theorem get_session_state_of_absent (store : SessionStore) (sid : String)
    (h : lookupState store sid = none) :
    get_session_state store sid
      = (initialSessionState, storeSet store sid initialSessionState) := by
  simp [get_session_state, h]

/-- The record `get_session_state` returns is the one stored under the key
in the store it returns. -/
theorem lookupState_get_session_state (store : SessionStore) (sid : String) :
    lookupState (get_session_state store sid).2 sid
      = some (get_session_state store sid).1 := by
  unfold get_session_state
  cases h : lookupState store sid with
  | some st => simpa using h
  | none => simp [lookupState_storeSet]

/-- The record `get_session_state` returns is the stored one, or the zero
record when the key was absent. -/
theorem get_session_state_fst (store : SessionStore) (sid : String) :
    (get_session_state store sid).1
      = (lookupState store sid).getD initialSessionState := by
  unfold get_session_state
  cases h : lookupState store sid <;> simp

/-- Keys other than the requested one are untouched by
`get_session_state`. -/
theorem lookupState_get_session_state_other (store : SessionStore)
    (sid sid2 : String) (h : sid2 ≠ sid) :
    lookupState (get_session_state store sid).2 sid2
      = lookupState store sid2 := by
  unfold get_session_state
  cases hl : lookupState store sid with
  | some st => simp
  | none => simp [lookupState_storeSet, h]

/-! ## Claim theorems -/

/-- C6: threshold classification uses `>=`, not `>`: on the success path a
frame is classified as a hit (`is_smirk = true`) exactly when the
normalized happiness score is at least `smirk_threshold`, and a score
exactly equal to the default threshold 0.3 (raw percentage 30) counts as a
hit — both in the DeepFace service and in the Flask demo scorer, whose
hard-coded threshold is the same 0.3. -/
theorem threshold_comparison_is_ge (q : ℚ) (sid : String) (ts : ℚ) :
    ((defaultService.analyzeFrame (.success q) sid ts).is_smirk = true
        ↔ normalizeEmotion q ≥ settings.smirk_threshold)
    ∧ (defaultService.analyzeFrame (.success 30) sid ts).is_smirk = true
    ∧ process_frame (.decoded (mkRat 3 10))
        = .successResult (mkRat 3 10) true := by
  refine ⟨?_, ?_, by decide⟩
  · simp [DeepFaceService.analyzeFrame, defaultService, DeepFaceService.init,
      pyOrQ]
  · simp [DeepFaceService.analyzeFrame]
    decide

/-- C10: constructing `DeepFaceService` with an explicitly zero-valued
configuration is impossible: `smirk_threshold=0.0` and
`consecutive_frames_required=0` are falsy, so Python's `or` silently
replaces them with the settings defaults 0.3 and 3; the effective value
equals the injected one exactly when that value is non-zero. -/
theorem falsy_config_replaced_by_defaults :
    (DeepFaceService.init (some 0) (some 0)).smirk_threshold
        = settings.smirk_threshold
    ∧ settings.smirk_threshold = 3 / 10
    ∧ (DeepFaceService.init (some 0) (some 0)).consecutive_frames_required = 3
    ∧ (∀ x : ℚ, (DeepFaceService.init (some x) none).smirk_threshold = x
        ↔ x ≠ 0)
    ∧ (∀ n : ℕ,
        (DeepFaceService.init none (some n)).consecutive_frames_required = n
        ↔ n ≠ 0) := by
  refine ⟨by simp [DeepFaceService.init, pyOrQ], settings_smirk_threshold_eq,
    by simp [DeepFaceService.init, pyOrNat, settings], fun x => ?_, fun n => ?_⟩
  · by_cases hx : x = 0
    · subst hx
      simp [DeepFaceService.init, pyOrQ, settings]
    · simp [DeepFaceService.init, pyOrQ, hx]
  · by_cases hn : n = 0
    · subst hn
      simp [DeepFaceService.init, pyOrNat, settings]
    · simp [DeepFaceService.init, pyOrNat, hn]

/-- C1 counterexample: game-over is not a sticky one-time edge.  After the
confirming third call on the score sequence [0.4, 0.4, 0.4], a fourth call
with a miss score (0.1) reports `game_over = false` (not `true`), and a
fourth call with a hit score (0.4) re-announces
`smirk_reason = "consecutive_frames"` (not `None`). -/
theorem game_over_sticky_cex :
    ¬ ((analyze_emotion storeAfterThreeHits uuidA 4 (.success 10)).1.map
         (fun r => r.game_over) = .ok true)
    ∧ ¬ ((analyze_emotion storeAfterThreeHits uuidA 4 (.success 40)).1.map
         (fun r => r.smirk_reason) = .ok none) := by
  decide

/-- C2 counterexample: on the WebSocket path a no-face frame does not
reset the streak: after a hit frame followed by a no-face frame the stored
consecutive count is still 1, not 0. -/
theorem websocket_no_face_keeps_streak_cex :
    (websocket_frame (websocket_frame [] uuidA 1 (.success 90)).2
        uuidA 2 .noFace).2
      = [(uuidA, { consecutive_smirk_count := 1, last_detection_time := none,
                   smirk_detected_at := none })] := by
  decide

/-- C1 (amended): with the default configuration (threshold 0.3,
`consecutive_frames_required` 3) and the score sequence [0.4, 0.4, 0.4],
the 3rd evaluate call returns `game_over = true` with
`smirk_reason = "consecutive_frames"`; but game-over is a level, not a
one-time edge: a 4th call with a hit score re-announces `game_over = true`
with `smirk_reason = "consecutive_frames"` again, while a 4th call with a
miss score returns `game_over = false` with the count reset to 0. -/
theorem game_over_is_level_not_edge :
    ((analyze_emotion (analyzeSeq [] uuidA [(1, .success 40), (2, .success 40)])
        uuidA 3 (.success 40)).1.map
        (fun r => (r.game_over, r.smirk_reason, r.game_over_reason))
      = .ok (true, some "consecutive_frames", some "smirk_detected"))
    ∧ ((analyze_emotion storeAfterThreeHits uuidA 4 (.success 40)).1.map
        (fun r => (r.game_over, r.smirk_reason))
      = .ok (true, some "consecutive_frames"))
    ∧ ((analyze_emotion storeAfterThreeHits uuidA 4 (.success 10)).1.map
        (fun r => (r.game_over, r.smirk_reason, r.consecutive_smirk_count))
      = .ok (false, none, 0)) := by
  decide

/-- C2 (amended): a frame with no face detected resets the streak on the
HTTP analyze-emotion path — the stored count and the reported count both
become 0 — but on the WebSocket path a non-success frame leaves the stored
count (and the whole store) unchanged. -/
theorem no_face_resets_streak_http_only (store : SessionStore) (sid : String)
    (ts : ℚ) (h : uuidShaped sid = true) :
    lookupState (analyze_emotion store sid ts .noFace).2 sid
      = some { (get_session_state store sid).1 with
               consecutive_smirk_count := 0 }
    ∧ ((analyze_emotion store sid ts .noFace).1.map
        (fun r => r.consecutive_smirk_count) = .ok 0)
    ∧ (websocket_frame store sid ts .noFace).2 = (get_session_state store sid).2
    ∧ (websocket_frame store sid ts .noFace).1.consecutive_smirk_count
        = (get_session_state store sid).1.consecutive_smirk_count := by
  refine ⟨?_, ?_, ?_, ?_⟩
  · simp [analyze_emotion, h, DeepFaceService.analyzeFrame,
      lookupState_storeSet]
  · simp [analyze_emotion, h, DeepFaceService.analyzeFrame,
      detectionResponseOk, Except.map]
  · have h1 := lookupState_get_session_state store sid
    simp only [websocket_frame, DeepFaceService.analyzeFrame]
    simp only [reduceCtorEq, if_false]
    exact storeSet_self _ _ _ h1
  · simp [websocket_frame, DeepFaceService.analyzeFrame]

/-- C2 witness: on a store holding a streak of two hits, an HTTP no-face
frame zeroes the stored count. -/
theorem no_face_resets_streak_http_only_witness :
    lookupState (analyze_emotion storeWithStreakTwo uuidA 5 .noFace).2 uuidA
      = some { (get_session_state storeWithStreakTwo uuidA).1 with
               consecutive_smirk_count := 0 } :=
  (no_face_resets_streak_http_only storeWithStreakTwo uuidA 5 (by decide)).1

/-- C3 counterexample: after a confirmed session is reset through the
FastAPI endpoint, a status call still reports the old `smirk_detected_at`
(`some 3`, not `None`); and resetting a session id that does not yet exist
does not create it (the store stays empty). -/
theorem reset_keeps_confirmed_at_cex :
    ((get_session_status (reset_session storeAfterThreeHits uuidA).2
        uuidA).1.map (fun r => r.smirk_detected_at) = .ok (some 3))
    ∧ (reset_session [] uuidA).2 = [] := by
  decide

/-- C3 (amended): reset followed by status yields `consecutive_smirk_count
= 0` and `game_over = false`, but in the FastAPI backend the reset clears
only the count: `smirk_detected_at` (and `last_detection_time`) keep their
prior values, and resetting an unknown session id leaves the store
unchanged (the session is only created lazily by the following status
call).  Only the serverless session endpoint clears all three fields, so
there a reset followed by status reports `smirk_detected_at = None`. -/
theorem reset_then_status_zeroes_count_only (store : SessionStore)
    (sid : String) (h : uuidShaped sid = true) :
    (get_session_status (reset_session store sid).2 sid).1
      = .ok { session_id := sid
              consecutive_smirk_count := 0
              last_detection_time :=
                (get_session_state store sid).1.last_detection_time
              smirk_detected_at :=
                (get_session_state store sid).1.smirk_detected_at
              game_over := false }
    ∧ (lookupState store sid = none → (reset_session store sid).2 = store)
    ∧ (vercel_session_main
        (vercel_session_main store (some sid) .resetAction).2
        (some sid) .statusAction).1
      = .ok (.statusOut
          { session_id := sid, consecutive_smirk_count := 0,
            last_detection_time := none, smirk_detected_at := none,
            game_over := false }) := by
  have hne : sid ≠ "" := by
    intro he
    rw [he] at h
    exact absurd h (by decide)
  refine ⟨?_, fun hl => by simp [reset_session, reset_session_state, h, hl], ?_⟩
  · cases hl : lookupState store sid with
    | none =>
        simp [reset_session, reset_session_state, get_session_status, h, hl,
          get_session_state, initialSessionState, settings]
    | some st =>
        simp [reset_session, reset_session_state, get_session_status, h, hl,
          get_session_state, lookupState_storeSet, settings]
  · have h2 := lookupState_get_session_state store sid
    have hreset : (vercel_session_main store (some sid) .resetAction).2
        = storeSet (get_session_state store sid).2 sid initialSessionState := by
      simp [vercel_session_main, h, hne, vercelResetSessionState, h2]
    have hlook : lookupState (storeSet (get_session_state store sid).2 sid
        initialSessionState) sid = some initialSessionState := by
      simp [lookupState_storeSet]
    have hgss := get_session_state_of_present _ sid _ hlook
    rw [hreset]
    simp [vercel_session_main, h, hne, hgss]
    simp [initialSessionState]

/-- C3 witness: resetting a confirmed session through the FastAPI
endpoint and querying its status reports a zero count and no game over
(while keeping the old detection timestamp). -/
theorem reset_then_status_zeroes_count_only_witness :
    (get_session_status (reset_session storeAfterThreeHits uuidA).2 uuidA).1
      = .ok { session_id := uuidA
              consecutive_smirk_count := 0
              last_detection_time :=
                (get_session_state storeAfterThreeHits uuidA).1.last_detection_time
              smirk_detected_at :=
                (get_session_state storeAfterThreeHits uuidA).1.smirk_detected_at
              game_over := false } :=
  (reset_then_status_zeroes_count_only storeAfterThreeHits uuidA (by decide)).1

/-- C4 (amended): `smirk_detected_at` is assigned the triggering frame's
timestamp on every evaluate call whose updated streak meets the threshold,
so later qualifying calls overwrite the value set at the first
confirmation; it is not a write-once field. -/
theorem confirmed_at_written_on_every_qualifying_call (store : SessionStore)
    (sid : String) (ts q : ℚ) (h : uuidShaped sid = true)
    (hq : settings.smirk_threshold ≤ normalizeEmotion q)
    (hcnt : settings.consecutive_frames_required
        ≤ (get_session_state store sid).1.consecutive_smirk_count + 1) :
    lookupState (analyze_emotion store sid ts (.success q)).2 sid
      = some { consecutive_smirk_count :=
                 (get_session_state store sid).1.consecutive_smirk_count + 1
               last_detection_time := some ts
               smirk_detected_at := some ts } := by
  simp [analyze_emotion, h, DeepFaceService.analyzeFrame, defaultService,
    DeepFaceService.init, pyOrQ, hq, hcnt, lookupState_storeSet]

/-- C4 witness: on a session with a streak of two and no prior
confirmation, a third hit at timestamp 5 stores `smirk_detected_at = 5`.
Together with `confirmed_at_overwritten_cex` this exhibits the overwrite
on each qualifying call. -/
theorem confirmed_at_written_on_every_qualifying_call_witness :
    lookupState (analyze_emotion storeWithStreakTwo uuidA 5 (.success 40)).2
        uuidA
      = some { consecutive_smirk_count := 3
               last_detection_time := some 5
               smirk_detected_at := some 5 } :=
  confirmed_at_written_on_every_qualifying_call storeWithStreakTwo uuidA 5 40
    (by decide) (by decide) (by decide)

/-- C4 counterexample: `smirk_detected_at` is not written at most once:
it is `some 3` after the confirming third hit and is overwritten to
`some 4` by the fourth hit, with no reset in between. -/
theorem confirmed_at_overwritten_cex :
    lookupState storeAfterThreeHits uuidA
      = some { consecutive_smirk_count := 3, last_detection_time := some 3,
               smirk_detected_at := some 3 }
    ∧ lookupState storeAfterFourHits uuidA
      = some { consecutive_smirk_count := 4, last_detection_time := some 4,
               smirk_detected_at := some 4 } := by
  decide

/-- C5 counterexample: an out-of-range score is not clamped: a raw happy
percentage of 150 is recorded as happiness 1.5 (outside [0, 1], so not
clamped to the bound 1.0), and the HTTP endpoint then rejects the response
as a processing error rather than clamping it. -/
theorem score_clamping_cex :
    (defaultService.analyzeFrame (.success 150) uuidA 1).happiness
        = some (normalizeEmotion 150)
    ∧ ¬ (normalizeEmotion 150 ≤ 1)
    ∧ (analyze_emotion [] uuidA 1 (.success 150)).1
        = .error .processingError := by
  decide

/-- An analysis result whose happiness lies outside [0, 1] fails the
`DetectionResponse` bound checks. -/
theorem detectionResponseOk_out_of_range (r : AnalysisResult) (hv : ℚ)
    (hr : r.happiness = some hv) (hout : hv < 0 ∨ 1 < hv) :
    detectionResponseOk r = false := by
  simp only [detectionResponseOk, hr, Bool.and_eq_false_iff,
    decide_eq_false_iff_not, not_le]
  rcases hout with h1 | h1
  · exact .inl h1
  · exact .inr h1

/-- C5 (amended): a score outside [0, 1] is neither clamped nor recorded
as clamped: the service classifies against the raw normalized value and
reports it unchanged; the HTTP endpoint then fails response validation on
the out-of-range value and returns a processing error (rather than
clamping), while the WebSocket path passes the unclamped value through. -/
theorem out_of_range_score_unclamped (store : SessionStore) (q : ℚ)
    (sid : String) (ts : ℚ) (h : uuidShaped sid = true)
    (hout : normalizeEmotion q < 0 ∨ 1 < normalizeEmotion q) :
    (defaultService.analyzeFrame (.success q) sid ts).happiness
        = some (normalizeEmotion q)
    ∧ (defaultService.analyzeFrame (.success q) sid ts).is_smirk
        = decide (normalizeEmotion q ≥ settings.smirk_threshold)
    ∧ (analyze_emotion store sid ts (.success q)).1 = .error .processingError
    ∧ (websocket_frame store sid ts (.success q)).1.happiness
        = some (normalizeEmotion q) := by
  refine ⟨by simp [DeepFaceService.analyzeFrame], ?_, ?_, ?_⟩
  · simp [DeepFaceService.analyzeFrame, defaultService, DeepFaceService.init,
      pyOrQ]
  · have hfalse : (decide ((0 : ℚ) ≤ normalizeEmotion q)
        && decide (normalizeEmotion q ≤ 1)) = false := by
      rcases hout with h1 | h1
      · simp [not_le.mpr h1]
      · simp [not_le.mpr h1]
    simp only [analyze_emotion, h, Bool.true_eq_false, if_false,
      DeepFaceService.analyzeFrame, detectionResponseOk, hfalse]
    split_ifs <;> simp_all
  · simp [websocket_frame, DeepFaceService.analyzeFrame]

/-- C5 witness: a raw happy percentage of 150 (score 1.5) reaches the
classification and the response unclamped, and the HTTP endpoint rejects
it as a processing error. -/
theorem out_of_range_score_unclamped_witness :
    (analyze_emotion storeWithStreakTwo uuidA 7 (.success 150)).1
      = .error .processingError :=
  (out_of_range_score_unclamped storeWithStreakTwo 150 uuidA 7 (by decide)
    (by decide)).2.2.1

/-- C7 counterexample: a status call is not free of stored-state changes:
on an empty store, querying the status of a (valid, unknown) session id
creates that session in the store. -/
theorem status_lazy_creation_cex :
    (get_session_status [] uuidA).2 ≠ ([] : SessionStore) := by
  decide

/-- C7 (amended): a status call never changes the value stored for any
session — every other id keeps its binding, the queried id afterwards
holds exactly its old record (or the zero record if it was absent), the
store is unchanged whenever the queried session already existed, and
repeating the status call returns the same snapshot.  The one mutation is
lazy creation: querying an unknown id installs the zero-initialized
record. -/
theorem status_mutates_nothing_but_lazy_creation (store : SessionStore)
    (sid : String) (h : uuidShaped sid = true) :
    (∀ sid2 : String, sid2 ≠ sid →
        lookupState (get_session_status store sid).2 sid2
          = lookupState store sid2)
    ∧ lookupState (get_session_status store sid).2 sid
        = some ((lookupState store sid).getD initialSessionState)
    ∧ ((lookupState store sid).isSome = true →
        (get_session_status store sid).2 = store)
    ∧ (get_session_status (get_session_status store sid).2 sid).1
        = (get_session_status store sid).1 := by
  have hsnd : (get_session_status store sid).2 = (get_session_state store sid).2 := by
    simp [get_session_status, h]
  refine ⟨fun sid2 h2 => ?_, ?_, fun hs => ?_, ?_⟩
  · rw [hsnd]
    exact lookupState_get_session_state_other store sid sid2 h2
  · rw [hsnd, lookupState_get_session_state, get_session_state_fst]
  · obtain ⟨st, hst⟩ := Option.isSome_iff_exists.mp hs
    rw [hsnd, get_session_state_of_present store sid st hst]
  · have hpres := lookupState_get_session_state store sid
    rw [hsnd]
    simp [get_session_status, h, get_session_state_of_present _ _ _ hpres,
      get_session_state_fst, hpres]

/-- C7 witness: a status call on a store that already holds the queried
session leaves the store exactly as it was. -/
theorem status_mutates_nothing_but_lazy_creation_witness :
    (get_session_status storeWithStreakTwo uuidA).2 = storeWithStreakTwo :=
  (status_mutates_nothing_but_lazy_creation storeWithStreakTwo uuidA
    (by decide)).2.2.1 (by decide)

/-- C8: a malformed or empty session id is rejected before any state is
touched: on every store, each of the evaluate, status and reset endpoints
returns the INVALID_SESSION_ID error and leaves the store exactly as it
was; the serverless session endpoint likewise rejects it (as missing when
empty, as invalid otherwise) without changing the store, and the
serverless analyze endpoint rejects it with HTTP 400. -/
theorem invalid_session_id_rejected_state_unchanged (store : SessionStore)
    (sid : String) (ts : ℚ) (obs : ScoreObs) (act : VercelAction) (fd : Bool)
    (h : uuidShaped sid = false) :
    analyze_emotion store sid ts obs = (.error .invalidSessionId, store)
    ∧ get_session_status store sid = (.error .invalidSessionId, store)
    ∧ reset_session store sid = (.error .invalidSessionId, store)
    ∧ ((vercel_session_main store (some sid) act).2 = store
        ∧ ((vercel_session_main store (some sid) act).1
              = .error .missingSessionId
            ∨ (vercel_session_main store (some sid) act).1
              = .error .invalidSessionId))
    ∧ vercel_session_main store none act = (.error .missingSessionId, store)
    ∧ (sid ≠ "" →
        vercel_analyze_main "x" sid fd = (.errorOut "INVALID_SESSION_ID", 400))
    ∧ vercel_analyze_main "x" "" fd = (.errorOut "MISSING_SESSION_ID", 400) := by
  refine ⟨by simp [analyze_emotion, h], by simp [get_session_status, h],
    by simp [reset_session, h], ?_, by simp [vercel_session_main],
    fun hne => ?_, by simp [vercel_analyze_main]⟩
  · by_cases he : sid = ""
    · subst he
      exact ⟨by simp [vercel_session_main], .inl (by simp [vercel_session_main])⟩
    · exact ⟨by simp [vercel_session_main, he, h],
        .inr (by simp [vercel_session_main, he, h])⟩
  · simp [vercel_analyze_main, hne, analyze_frame_simple, h]

/-- C8 witness: the string "not-a-uuid" is rejected by the evaluate
endpoint with no change to the (empty) store. -/
theorem invalid_session_id_rejected_state_unchanged_witness :
    analyze_emotion [] "not-a-uuid" 1 .noFace
      = (.error .invalidSessionId, []) :=
  (invalid_session_id_rejected_state_unchanged [] "not-a-uuid" 1 .noFace
    .statusAction true (by decide)).1

end Smirkle
